import Mathlib

/-!
Verification development for the graphiti-mk ingestion and query scripts.

The Python sources are shallowly embedded as Lean functions:
* assoc lists model Neo4j node sets keyed by identity (MERGE / SET semantics),
* plain lists model edge sets (MERGE is match-or-create on the node pair),
* `Except String` models a Python exception propagating out of a function,
* external HTTP services (embedding, LLM, graph search) are oracles passed
  in as function arguments.

Embedding vectors are payloads the scripts store and move around but never
compute with, so their element type is an uninterpreted stand-in.
-/

set_option autoImplicit false

namespace GraphitiMk

/-- Stand-in for an embedding vector: the scripts never inspect the float
entries, they only store and forward whole vectors. -/
abbrev Vec := List Int

/-! ### Association-list primitives modelling Cypher MERGE and SET

A node set with identity key `k` and property record `V` is a
`List (String × V)`; the scripts never create two nodes with one key
(that is exactly what the proofs below establish). -/

/-- Property lookup by node key (first match). -/
def lookupNode {V : Type} (k : String) : List (String × V) → Option V
  | [] => none
  | (k', v) :: rest => if k' = k then some v else lookupNode k rest

/-- Does a node with key `k` exist. -/
def containsKey {V : Type} (k : String) : List (String × V) → Bool
  | [] => false
  | (k', _) :: rest => k' = k || containsKey k rest

/-- Cypher MERGE on a node followed by SET of every property of that node:
overwrite the properties if the node exists, otherwise append a fresh node. -/
def setNode {V : Type} (k : String) (v : V) : List (String × V) → List (String × V)
  | [] => [(k, v)]
  | (k', v') :: rest => if k' = k then (k', v) :: rest else (k', v') :: setNode k v rest

/-- Cypher MERGE on a node with no SET: keep the node untouched if it
exists, otherwise append a fresh node carrying the blank property record
`d` (all properties absent). -/
def mergeNode {V : Type} (k : String) (d : V) : List (String × V) → List (String × V)
  | [] => [(k, d)]
  | (k', v') :: rest => if k' = k then (k', v') :: rest else (k', v') :: mergeNode k d rest

/-- Cypher MERGE on a relationship: add the edge unless it is already
present between the same endpoints. -/
def mergeEdge {α : Type} [DecidableEq α] (e : α) (l : List α) : List α :=
  if e ∈ l then l else l ++ [e]

/-- MERGE of one relationship per row of a multi-row MATCH. -/
def mergeEdges {α : Type} [DecidableEq α] (es : List α) (l : List α) : List α :=
  es.foldl (fun acc e => mergeEdge e acc) l

/-! ### Embedding pipeline

Source: src/Streaming-data-for-graphiti/embedding.py, `embed_texts`; the
same loop appears in src/whatsapp-ingested-graphiti/ingestion.py:

    def embed_texts(texts, batch_size=64):
        embeddings = []
        for i in range(0, len(texts), batch_size):
            r = requests.post(EMBEDDING_URL, json=..., timeout=30)
            r.raise_for_status()
            embeddings.extend([d["embedding"] for d in r.json()["data"]])
        return embeddings

The HTTP embedding service is the oracle `svc`, called once per loop
iteration on the slice `texts[i:i+batch_size]`.  `embed_texts_run` returns
the accumulated embeddings together with the posted request bodies in call
order.  The model is faithful for `batch_size ≥ 1`; Python `range` with
step 0 raises before the first iteration. -/

def embed_texts_run (svc : List String → List Vec) (batch_size : Nat)
    (texts : List String) : List Vec × List (List String) :=
  if h : batch_size = 0 ∨ texts = [] then ([], [])
  else
    let rest := embed_texts_run svc batch_size (texts.drop batch_size)
    (svc (texts.take batch_size) ++ rest.1, texts.take batch_size :: rest.2)
termination_by texts.length
decreasing_by
  push_neg at h
  have h1 : 0 < batch_size := Nat.pos_of_ne_zero h.1
  have h2 : 0 < texts.length := List.length_pos.mpr h.2
  simp only [List.length_drop]
  omega

/-- The list of embeddings `embed_texts` returns. -/
def embed_texts (svc : List String → List Vec) (batch_size : Nat)
    (texts : List String) : List Vec :=
  (embed_texts_run svc batch_size texts).1

/-- The request bodies `embed_texts` POSTs to the embedding service. -/
def embed_requests (svc : List String → List Vec) (batch_size : Nat)
    (texts : List String) : List (List String) :=
  (embed_texts_run svc batch_size texts).2

/-! ### Benchmark graph writer

Source: src/Benchmark/ingest_whatsapp_3.py, `write_batch` (one Cypher
statement per row of the UNWIND):

    MERGE (g:Group {id: row.group_id})
    MERGE (u:User {id: row.user_id})        SET u.name = row.user_name
    MERGE (m:Message {id: row.message_id})  SET m.body, m.timestamp, m.embedding
    MERGE (u)-[:SENT]->(m)
    MERGE (m)-[:IN_GROUP]->(g)
    FOREACH (_ IN CASE WHEN row.parent_id IS NULL THEN [] ELSE [1] END |
        MERGE (p:Message {id: row.parent_id})
        MERGE (p)-[:REPLIED_TO]->(m))

Edge lists hold (source, target) node keys of the directed relationship. -/

/-- The property record of a Message node; a field is `none` when the node
carries no such property (a bare MERGE creates a node with no properties). -/
structure MsgProps where
  body : Option String
  timestamp : Option Int
  embedding : Option Vec
deriving DecidableEq

/-- A Message node as a bare MERGE creates it: no properties at all. -/
def emptyMsg : MsgProps := ⟨none, none, none⟩

/-- One normalized record as built by ingest_whatsapp_3.main. -/
structure Row where
  group_id : String
  user_id : String
  user_name : String
  message_id : String
  parent_id : Option String
  timestamp : Int
  body : String
  embedding : Vec
deriving DecidableEq

@[ext] structure BmGraph where
  groups : List String
  users : List (String × String)
  messages : List (String × MsgProps)
  sent : List (String × String)
  in_group : List (String × String)
  replied_to : List (String × String)
deriving DecidableEq

def BmGraph.empty : BmGraph := ⟨[], [], [], [], [], []⟩

/-- The effect of the `write_batch` Cypher statement on one UNWIND row. -/
def writeRow (g : BmGraph) (r : Row) : BmGraph :=
  let groups := mergeEdge r.group_id g.groups
  let users := setNode r.user_id r.user_name g.users
  let messages :=
    setNode r.message_id ⟨some r.body, some r.timestamp, some r.embedding⟩ g.messages
  let sent := mergeEdge (r.user_id, r.message_id) g.sent
  let in_group := mergeEdge (r.message_id, r.group_id) g.in_group
  match r.parent_id with
  | none =>
      ⟨groups, users, messages, sent, in_group, g.replied_to⟩
  | some p =>
      ⟨groups, users, mergeNode p emptyMsg messages, sent, in_group,
        mergeEdge (p, r.message_id) g.replied_to⟩

/-- write_batch processes the UNWIND rows in order. -/
def write_batch (g : BmGraph) (batch : List Row) : BmGraph :=
  batch.foldl writeRow g

/-! ### Streaming graph writer

Source: src/Streaming-data-for-graphiti/graph_writer.py,
`GraphWriter.write_event`, four tx.run statements per StreamEvent:

1.  MERGE (a:Actor {id}) SET a.name = $actor_name
2.  MERGE (s:Stream {id: $stream_id, source: $source})
3.  MERGE (m:Message {id}) SET m.body, m.timestamp, m.embedding, m.source
    WITH m MATCH (a:Actor {id: $actor_id})   MERGE (a)-[:PRODUCED]->(m)
    WITH m MATCH (s:Stream {id: $stream_id}) MERGE (s)-[:HAS_EVENT]->(m)
4.  only when `e.parent_event_id` is truthy in Python (not None, not ""):
    MATCH (c:Message {id: $child}) MATCH (p:Message {id: $parent})
    MERGE (c)-[:REPLIES_TO]->(p)

Stream nodes are identified by the (id, source) pair since the MERGE in
statement 2 keys on both; the MATCH in statement 3 constrains only the id,
so it can match several Stream nodes and MERGE one edge per match.  The
MATCHes in statements 3 and 4 produce zero rows when the node is missing,
and everything after them in the same statement is then skipped. -/

/-- StreamEvent of src/Streaming-data-for-graphiti/adapters/schemas.py,
with the embedding attribute ingest.py attaches before writing. -/
structure StreamEvent where
  source : String
  stream_id : String
  event_id : String
  actor_id : String
  actor_name : Option String
  timestamp : Int
  content : String
  parent_event_id : Option String
  embedding : Option Vec
deriving DecidableEq

/-- Message properties written by write_event; `SET m.embedding = null`
removes the property, so an event without an embedding leaves `none`. -/
structure WMsgProps where
  body : Option String
  timestamp : Option Int
  embedding : Option Vec
  source : Option String
deriving DecidableEq

@[ext] structure WGraph where
  actors : List (String × Option String)
  streams : List (String × String)
  messages : List (String × WMsgProps)
  produced : List (String × String)
  has_event : List ((String × String) × String)
  replies_to : List (String × String)
deriving DecidableEq

def WGraph.empty : WGraph := ⟨[], [], [], [], [], []⟩

/-- tx.run 1: actor upsert. -/
def txActor (g : WGraph) (e : StreamEvent) : WGraph :=
  { g with actors := setNode e.actor_id e.actor_name g.actors }

/-- tx.run 2: stream upsert, keyed on (id, source). -/
def txStream (g : WGraph) (e : StreamEvent) : WGraph :=
  { g with streams := mergeEdge (e.stream_id, e.source) g.streams }

/-- tx.run 3: message upsert plus PRODUCED and HAS_EVENT edges; the edge
MERGEs run once per row surviving the MATCHes. -/
def txMessage (g : WGraph) (e : StreamEvent) : WGraph :=
  let messages :=
    setNode e.event_id ⟨some e.content, some e.timestamp, e.embedding, some e.source⟩ g.messages
  let produced :=
    if containsKey e.actor_id g.actors = true then
      mergeEdge (e.actor_id, e.event_id) g.produced
    else g.produced
  let has_event :=
    if containsKey e.actor_id g.actors = true then
      mergeEdges ((g.streams.filter fun s => s.1 = e.stream_id).map fun s => (s, e.event_id))
        g.has_event
    else g.has_event
  { g with messages := messages, produced := produced, has_event := has_event }

/-- tx.run 4: the REPLIES_TO edge, guarded by Python truthiness of the
parent id and by both MATCHes finding their Message node. -/
def replyEdges (g : WGraph) (e : StreamEvent) : List (String × String) :=
  match e.parent_event_id with
  | none => g.replies_to
  | some p =>
    if p = "" then g.replies_to
    else if containsKey e.event_id g.messages && containsKey p g.messages then
      mergeEdge (e.event_id, p) g.replies_to
    else g.replies_to

def write_event (g : WGraph) (e : StreamEvent) : WGraph :=
  let g3 := txMessage (txStream (txActor g e) e) e
  { g3 with replies_to := replyEdges g3 e }

/-- GraphWriter.ingest: one write_event transaction per event, in order. -/
def ingest (g : WGraph) (events : List StreamEvent) : WGraph :=
  events.foldl write_event g

/-! ### whatsapp-ingested graph writer

Source: src/whatsapp-ingested-graphiti/ingestion.py, `write_batch` (one
event per call): per-contact user upserts, conversation upsert, message
upsert with SENT and HAS_MESSAGE edges chained behind MATCHes, and a
REPLY_TO edge MERGE (child)-[:REPLY_TO]->(parent) guarded by
`if event["parent_id"]:` and by both MATCHes. -/

structure WIEvent where
  conversation_id : String
  message_id : String
  sender : String
  timestamp : Int
  text : String
  parent_id : Option String
  contacts : List (String × String)
  embedding : Vec
deriving DecidableEq

@[ext] structure WIGraph where
  users : List (String × String)
  conversations : List String
  messages : List (String × MsgProps)
  sent : List (String × String)
  has_message : List (String × String)
  reply_to : List (String × String)
deriving DecidableEq

def WIGraph.empty : WIGraph := ⟨[], [], [], [], [], []⟩

def wi_write_batch (g : WIGraph) (e : WIEvent) : WIGraph :=
  let users := e.contacts.foldl (fun acc c => setNode c.1 c.2 acc) g.users
  let conversations := mergeEdge e.conversation_id g.conversations
  let messages :=
    setNode e.message_id ⟨some e.text, some e.timestamp, some e.embedding⟩ g.messages
  let senderMatched := containsKey e.sender users
  let sent :=
    if senderMatched = true then mergeEdge (e.sender, e.message_id) g.sent else g.sent
  let has_message :=
    if senderMatched = true ∧ e.conversation_id ∈ conversations then
      mergeEdge (e.conversation_id, e.message_id) g.has_message
    else g.has_message
  let reply_to :=
    match e.parent_id with
    | none => g.reply_to
    | some p =>
      if p = "" then g.reply_to
      else if containsKey e.message_id messages && containsKey p messages then
        mergeEdge (e.message_id, p) g.reply_to
      else g.reply_to
  ⟨users, conversations, messages, sent, has_message, reply_to⟩

/-! ### Event normalizer and body renderer

Source: src/Benchmark/ingest_whatsapp_3.py, `main`, the per-type dispatch
over `msg["type"]` building `body`.  Python `.get(k, d)` chains become
`Option` plumbing; `str.strip()` and `str.capitalize()` get Lean models;
`contacts` is the dict comprehension over the contact profiles (unique
keys). -/

/-- Drop leading whitespace characters. -/
def stripLeading : List Char → List Char
  | [] => []
  | c :: cs => if c.isWhitespace then stripLeading cs else c :: cs

/-- Model of Python str.strip: whitespace removed from both ends. -/
def pyStrip (s : String) : String :=
  String.mk (stripLeading ((stripLeading s.data.reverse).reverse))

/-- Model of Python str.capitalize: first character uppercased, the rest
lowercased. -/
def pyCapitalize (s : String) : String :=
  match s.data with
  | [] => ""
  | c :: rest => String.mk (c.toUpper :: rest.map Char.toLower)

/-- Python f-string interpolation of a value that may be None. -/
def optStr : Option String → String
  | none => "None"
  | some s => s

/-- A single-quote character, used by rendered templates. -/
def sq : String := String.mk [Char.ofNat 39]

structure DocObj where
  filename : Option String
  caption : Option String
deriving DecidableEq

structure SystemObj where
  type : Option String
  title : Option String
deriving DecidableEq

structure ReactionObj where
  emoji : Option String
  message_id : Option String
deriving DecidableEq

/-- One raw WhatsApp message payload as main reads it.  The outer `Option`
of a payload field is presence of the key; the payload objects carry their
own optional keys, so `Option (Option String)` is object-present and then
key-present.  `sender` is `msg["from"]`. -/
structure WAMsg where
  type : String
  sender : String
  text : Option (Option String)
  image : Option (Option String)
  document : Option DocObj
  system : Option SystemObj
  reaction : Option ReactionObj
  video : Option (Option String)
deriving DecidableEq

/-- The rendered body computed by the per-type dispatch in main; `none` is
Python None (possible only for a text message whose payload lacks a
body). -/
def renderBody (contacts : List (String × String)) (msg : WAMsg) : Option String :=
  if msg.type = "text" then msg.text.join
  else if msg.type = "image" then
    some (pyStrip ("[Image] " ++ (msg.image.join.getD "")))
  else if msg.type = "document" then
    some (pyStrip ("[Document: " ++ ((msg.document.bind DocObj.filename).getD "unknown_file") ++
      "] " ++ ((msg.document.bind DocObj.caption).getD "")))
  else if msg.type = "system" then
    let sys_type := msg.system.bind SystemObj.type
    if sys_type = some "group_title_changed" then
      some ("[System] " ++ (lookupNode msg.sender contacts).getD "Unknown" ++
        " changed group title to " ++ sq ++
        ((msg.system.bind SystemObj.title).getD "Unknown") ++ sq)
    else if sys_type = some "user_joined" then
      some ("[System] " ++ (lookupNode msg.sender contacts).getD "Unknown" ++
        " joined the group")
    else some ("[System] " ++ optStr sys_type)
  else if msg.type = "reaction" then
    some ("[Reaction] Reacted with " ++ ((msg.reaction.bind ReactionObj.emoji).getD "") ++
      " to message " ++ ((msg.reaction.bind ReactionObj.message_id).getD ""))
  else if msg.type = "video" then
    some (pyStrip ("[Video] " ++ (msg.video.join.getD "")))
  else if msg.type = "audio" then some "[Audio] Voice Message"
  else if msg.type = "sticker" then some "[Sticker]"
  else some ("[" ++ pyCapitalize msg.type ++ "]")

/-- The `if not body: continue` filter: the record is kept only when the
rendered body is truthy. -/
def bodyKept : Option String → Bool
  | none => false
  | some s => s != ""

/-! ### Raw-event extraction

Sources: src/whatsapp-ingested-graphiti/ingestion.py `extract_events` and
src/Streaming-data-for-graphiti/adapters/whatsapp.py
`WhatsAppAdapter.parse`.  Both walk
record.entry[].changes[].value.messages[] and index required keys with
`msg[...]`, which raises KeyError when the key is missing; neither wraps
the loop in any exception handler.  Contact profiles are modelled as the
already-built wa_id-to-name pairs. -/

structure RawMsg where
  id : Option String
  sender : Option String
  timestamp : Option Int
  text : Option (Option String)
  parent_message_id : Option String
deriving DecidableEq

structure RawChange where
  contacts : List (String × String)
  messages : List RawMsg
deriving DecidableEq

structure RawEntry where
  id : String
  changes : List RawChange
deriving DecidableEq

structure RawRecord where
  entry : List RawEntry
deriving DecidableEq

/-- The normalized event dict built by extract_events. -/
structure WIRawEvent where
  conversation_id : String
  message_id : String
  sender : String
  timestamp : Int
  text : String
  parent_id : Option String
  contacts : List (String × String)
deriving DecidableEq

/-- Python `msg[key]`: raises KeyError when the key is missing. -/
def require {α : Type} (errMsg : String) : Option α → Except String α
  | none => Except.error errMsg
  | some a => Except.ok a

/-- Sequential traversal with fail-fast error propagation: the image of a
Python loop that may raise mid-way, producing no partial output. -/
def mapE {α β : Type} (f : α → Except String β) : List α → Except String (List β)
  | [] => Except.ok []
  | x :: xs =>
    match f x with
    | Except.error err => Except.error err
    | Except.ok y =>
      match mapE f xs with
      | Except.error err => Except.error err
      | Except.ok ys => Except.ok (y :: ys)

def isOk {ε α : Type} : Except ε α → Bool
  | Except.ok _ => true
  | Except.error _ => false

/-- Is the `text.body` payload missing (no text object, or no body key). -/
def missingTextBody : Option (Option String) → Bool
  | none => true
  | some none => true
  | some (some _) => false

/-- A record missing one of the fields the extractors index with
`msg[...]`: id, sender, timestamp, or the text body. -/
def malformedMsg (m : RawMsg) : Bool :=
  m.id.isNone || m.sender.isNone || m.timestamp.isNone || missingTextBody m.text

def extractMsg (cid : String) (contacts : List (String × String)) (m : RawMsg) :
    Except String WIRawEvent := do
  let mid ← require "KeyError: id" m.id
  let sender ← require "KeyError: from" m.sender
  let ts ← require "KeyError: timestamp" m.timestamp
  let textObj ← require "KeyError: text" m.text
  let body ← require "KeyError: body" textObj
  Except.ok ⟨cid, mid, sender, ts, body, m.parent_message_id, contacts⟩

def extractChange (cid : String) (ch : RawChange) : Except String (List WIRawEvent) :=
  mapE (extractMsg cid ch.contacts) ch.messages

def extractEntry (en : RawEntry) : Except String (List WIRawEvent) :=
  (mapE (extractChange en.id) en.changes).map List.flatten

def extractRecord (rec : RawRecord) : Except String (List WIRawEvent) :=
  (mapE extractEntry rec.entry).map List.flatten

/-- ingestion.py extract_events: the first KeyError aborts the whole batch
and no partial event list is returned. -/
def extract_events (payload : List RawRecord) : Except String (List WIRawEvent) :=
  (mapE extractRecord payload).map List.flatten

def parseMsg (stream_id : String) (contacts : List (String × String)) (m : RawMsg) :
    Except String StreamEvent := do
  let mid ← require "KeyError: id" m.id
  let sender ← require "KeyError: from" m.sender
  let ts ← require "KeyError: timestamp" m.timestamp
  let textObj ← require "KeyError: text" m.text
  let body ← require "KeyError: body" textObj
  Except.ok ⟨"whatsapp", stream_id, mid, sender, lookupNode sender contacts, ts, body,
    m.parent_message_id, none⟩

def parseChange (stream_id : String) (ch : RawChange) : Except String (List StreamEvent) :=
  mapE (parseMsg stream_id ch.contacts) ch.messages

def parseEntry (en : RawEntry) : Except String (List StreamEvent) :=
  (mapE (parseChange en.id) en.changes).map List.flatten

def parseRecord (rec : RawRecord) : Except String (List StreamEvent) :=
  (mapE parseEntry rec.entry).map List.flatten

/-- WhatsAppAdapter.parse, consumed as list(adapter.parse(payload)) by
ingest.py: a KeyError mid-iteration likewise aborts with no events. -/
def parse (payload : List RawRecord) : Except String (List StreamEvent) :=
  (mapE parseRecord payload).map List.flatten

/-! ### Model responses and answer extraction

Source: src/Benchmark/query_api.py, `query_graph`, lines 236-255: the
defensive extraction of an answer string from whatever the model client
returned.  Responses are modelled as JSON-like values; `pyStr` and
`pyTruthy` model Python str() and truthiness on them. -/

inductive JVal where
  | jnull : JVal
  | jbool : Bool → JVal
  | jnum : Int → JVal
  | jstr : String → JVal
  | jarr : List JVal → JVal
  | jobj : List (String × JVal) → JVal

def pyTruthy : JVal → Bool
  | JVal.jnull => false
  | JVal.jbool b => b
  | JVal.jnum n => n != 0
  | JVal.jstr s => s != ""
  | JVal.jarr xs => !xs.isEmpty
  | JVal.jobj fs => !fs.isEmpty

mutual

/-- Model of Python repr on JSON-like values (string escaping elided). -/
def pyRepr : JVal → String
  | JVal.jnull => "None"
  | JVal.jbool true => "True"
  | JVal.jbool false => "False"
  | JVal.jnum n => toString n
  | JVal.jstr s => sq ++ s ++ sq
  | JVal.jarr xs => "[" ++ pyReprList xs ++ "]"
  | JVal.jobj fs => "\x7b" ++ pyReprFields fs ++ "\x7d"

def pyReprList : List JVal → String
  | [] => ""
  | [x] => pyRepr x
  | x :: xs => pyRepr x ++ ", " ++ pyReprList xs

def pyReprFields : List (String × JVal) → String
  | [] => ""
  | [(k, v)] => sq ++ k ++ sq ++ ": " ++ pyRepr v
  | (k, v) :: xs => sq ++ k ++ sq ++ ": " ++ pyRepr v ++ ", " ++ pyReprFields xs

end

/-- Model of Python str(): identity on strings, repr-like elsewhere. -/
def pyStr : JVal → String
  | JVal.jstr s => s
  | v => pyRepr v

/-- The fixed priority order of answer-bearing keys. -/
def answer_keys : List String := ["answer", "response", "result", "text", "content", "message"]

/-- The `for key in answer_keys: if key in response and response[key]:`
loop: the stringified value of the first priority key that is present with
a truthy value. -/
def firstKeyAnswer (fields : List (String × JVal)) : List String → Option String
  | [] => none
  | k :: ks =>
    match lookupNode k fields with
    | some v => if pyTruthy v then some (pyStr v) else firstKeyAnswer fields ks
    | none => firstKeyAnswer fields ks

/-- `[v for v in response.values() if isinstance(v, str)]`. -/
def stringValues (fields : List (String × JVal)) : List String :=
  fields.filterMap fun kv => match kv.2 with | JVal.jstr s => some s | _ => none

/-- Python `max(strings, key=len)`: keeps the earliest maximum. -/
def maxByLen : List String → String
  | [] => ""
  | x :: xs => xs.foldl (fun best s => if best.length < s.length then s else best) x

/-- The answer extraction of Benchmark query_graph. -/
def extract_answer (response : JVal) : String :=
  match response with
  | JVal.jobj fields =>
    let answer := (firstKeyAnswer fields answer_keys).getD ""
    if answer = "" then
      match stringValues fields with
      | [] => pyStr (JVal.jobj fields)
      | x :: xs => maxByLen (x :: xs)
    else answer
  | v => pyStr v

/-- The resolution rule as the specification words it: the first priority
key present with a truthy value wins; otherwise the longest string-valued
field (first of ties); otherwise the stringified whole response; a
non-dict response is stringified. -/
def extract_answer_spec (response : JVal) : String :=
  match response with
  | JVal.jobj fields =>
    match (answer_keys.filter fun k => ((lookupNode k fields).map pyTruthy).getD false).head? with
    | some k => pyStr ((lookupNode k fields).getD JVal.jnull)
    | none =>
      match (stringValues fields).argmax String.length with
      | some s => s
      | none => pyStr (JVal.jobj fields)
  | v => pyStr v

/-! ### Query endpoints

Sources: src/Benchmark/query_api.py `query_graph` (whole handler inside
try/except, returning a success body with query, answer and context, or an
error body with error and query) and
src/Streaming-data-for-graphiti/query_api.py `query_graph` (no exception
handling at all; the success body carries only query and answer).  The
external steps are oracles; an `Except.error` result of a handler is an
exception escaping it. -/

inductive ApiBody where
  | success : String → String → String → ApiBody
  | failure : String → String → ApiBody
deriving DecidableEq

/-- The f-string prompt of the Benchmark handler. -/
def bmPrompt (context_text q : String) : String :=
  "\nYou are answering based on WhatsApp conversations stored in a knowledge graph.\n\n" ++
  context_text ++ "\n\nQuestion: " ++ q ++
  "\n\nAnswer concisely and only using the context provided above.\n"

/-- Benchmark query_graph.  `initialized` is whether the startup hook
managed to build the global client; the raise on the uninitialized client,
the search step and the LLM call all land in the surrounding except
clause. -/
def query_graph_bm (initialized : Bool) (search : Except String String)
    (llm : String → Except String JVal) (q : String) : ApiBody :=
  let attempt : Except String ApiBody :=
    if initialized = false then Except.error "Graphiti client not initialized"
    else
      match search with
      | Except.error err => Except.error err
      | Except.ok context_text =>
        match llm (bmPrompt context_text q) with
        | Except.error err => Except.error err
        | Except.ok response =>
          Except.ok (ApiBody.success q (extract_answer response) context_text)
  match attempt with
  | Except.ok b => b
  | Except.error err => ApiBody.failure err q

/-- The Streaming success body: query and answer only, no context field. -/
inductive StBody where
  | success : String → String → StBody
deriving DecidableEq

/-- Streaming query_graph: embed, retrieve, prompt, LLM, with no handler,
so a raising step escapes as `Except.error`.  The prompt text depends on
Python set iteration order and is folded into the LLM oracle. -/
def query_graph_st (embed : Except String Vec)
    (retrieve : Vec → Except String (List (String × List String)))
    (llm : List (String × List String) → Except String String) (q : String) :
    Except String StBody :=
  match embed with
  | Except.error err => Except.error err
  | Except.ok embedding =>
    match retrieve embedding with
    | Except.error err => Except.error err
    | Except.ok context =>
      match llm context with
      | Except.error err => Except.error err
      | Except.ok answer => Except.ok (StBody.success q answer)

/-! ## Theorems -/

/-! ### Association-list and edge-set lemmas -/

@[simp] theorem lookupNode_nil {V : Type} (k : String) :
    lookupNode (V := V) k [] = none := rfl

theorem lookup_setNode_self {V : Type} (k : String) (v : V) (l : List (String × V)) :
    lookupNode k (setNode k v l) = some v := by
  induction l with
  | nil => simp [setNode, lookupNode]
  | cons hd t ih =>
    obtain ⟨k', v'⟩ := hd
    by_cases hk : k' = k
    · simp [setNode, lookupNode, hk]
    · simp [setNode, lookupNode, hk, ih]

theorem setNode_setNode {V : Type} (k : String) (v w : V) (l : List (String × V)) :
    setNode k v (setNode k w l) = setNode k v l := by
  induction l with
  | nil => simp [setNode]
  | cons hd t ih =>
    obtain ⟨k', v'⟩ := hd
    by_cases hk : k' = k
    · simp [setNode, hk]
    · simp [setNode, hk, ih]

theorem setNode_of_lookup_eq {V : Type} {k : String} {v : V} {l : List (String × V)}
    (h : lookupNode k l = some v) : setNode k v l = l := by
  induction l with
  | nil => simp [lookupNode] at h
  | cons hd t ih =>
    obtain ⟨k', v'⟩ := hd
    by_cases hk : k' = k
    · simp [lookupNode, hk] at h
      simp [setNode, hk, h]
    · simp [lookupNode, hk] at h
      simp [setNode, hk, ih h]

theorem mergeNode_of_contains {V : Type} {k : String} {d : V} {l : List (String × V)}
    (h : containsKey k l = true) : mergeNode k d l = l := by
  induction l with
  | nil => simp [containsKey] at h
  | cons hd t ih =>
    obtain ⟨k', v'⟩ := hd
    by_cases hk : k' = k
    · simp [mergeNode, hk]
    · simp [containsKey, hk] at h
      simp [mergeNode, hk, ih h]

theorem contains_setNode_self {V : Type} (k : String) (v : V) (l : List (String × V)) :
    containsKey k (setNode k v l) = true := by
  induction l with
  | nil => simp [setNode, containsKey]
  | cons hd t ih =>
    obtain ⟨k', v'⟩ := hd
    by_cases hk : k' = k
    · simp [setNode, containsKey, hk]
    · simp [setNode, containsKey, hk, ih]

theorem lookup_mergeNode_of_contains {V : Type} {k' : String} (k : String) (d : V)
    {l : List (String × V)} (h : containsKey k' l = true) :
    lookupNode k' (mergeNode k d l) = lookupNode k' l := by
  induction l with
  | nil => simp [containsKey] at h
  | cons hd t ih =>
    obtain ⟨ka, va⟩ := hd
    by_cases hk : ka = k
    · simp [mergeNode, hk]
    · by_cases hk' : ka = k'
      · subst hk'
        simp [mergeNode, hk, lookupNode]
      · simp [containsKey, hk'] at h
        simp [mergeNode, hk, lookupNode, hk', ih h]

theorem contains_mergeNode_self {V : Type} (k : String) (d : V) (l : List (String × V)) :
    containsKey k (mergeNode k d l) = true := by
  induction l with
  | nil => simp [mergeNode, containsKey]
  | cons hd t ih =>
    obtain ⟨k', v'⟩ := hd
    by_cases hk : k' = k
    · simp [mergeNode, containsKey, hk]
    · simp [mergeNode, containsKey, hk, ih]

theorem setNode_mergeNode {V : Type} (k : String) (v d : V) (l : List (String × V)) :
    setNode k v (mergeNode k d l) = setNode k v l := by
  induction l with
  | nil => simp [mergeNode, setNode]
  | cons hd t ih =>
    obtain ⟨k', v'⟩ := hd
    by_cases hk : k' = k
    · simp [mergeNode, setNode, hk]
    · simp [mergeNode, setNode, hk, ih]

theorem lookup_mergeNode_of_not_contains {V : Type} {k : String} (d : V)
    {l : List (String × V)} (h : containsKey k l = false) :
    lookupNode k (mergeNode k d l) = some d := by
  induction l with
  | nil => simp [mergeNode, lookupNode]
  | cons hd t ih =>
    obtain ⟨k', v'⟩ := hd
    by_cases hk : k' = k
    · simp [containsKey, hk] at h
    · simp [containsKey, hk] at h
      simp [mergeNode, lookupNode, hk, ih h]

/-- The key multiset of a node list after a MERGE-and-SET: unchanged when the
key was present, extended by exactly one node otherwise. -/
theorem keys_setNode {V : Type} (k : String) (v : V) (l : List (String × V)) :
    (setNode k v l).map Prod.fst =
      if containsKey k l = true then l.map Prod.fst else l.map Prod.fst ++ [k] := by
  induction l with
  | nil => simp [setNode, containsKey]
  | cons hd t ih =>
    obtain ⟨k', v'⟩ := hd
    by_cases hk : k' = k
    · simp [setNode, hk, containsKey]
    · by_cases hc : containsKey k t = true
      · simp [setNode, hk, containsKey, hc, ih]
      · simp [setNode, hk, containsKey, hc, ih]

/-- The key multiset after a bare MERGE: same shape as for `setNode`. -/
theorem keys_mergeNode {V : Type} (k : String) (d : V) (l : List (String × V)) :
    (mergeNode k d l).map Prod.fst =
      if containsKey k l = true then l.map Prod.fst else l.map Prod.fst ++ [k] := by
  induction l with
  | nil => simp [mergeNode, containsKey]
  | cons hd t ih =>
    obtain ⟨k', v'⟩ := hd
    by_cases hk : k' = k
    · simp [mergeNode, hk, containsKey]
    · by_cases hc : containsKey k t = true
      · simp [mergeNode, hk, containsKey, hc, ih]
      · simp [mergeNode, hk, containsKey, hc, ih]

theorem count_keys_eq_zero_of_not_contains {V : Type} {k : String}
    {l : List (String × V)} (h : containsKey k l = false) :
    (l.map Prod.fst).count k = 0 := by
  induction l with
  | nil => simp
  | cons hd t ih =>
    obtain ⟨k', v'⟩ := hd
    by_cases hk : k' = k
    · simp [containsKey, hk] at h
    · simp [containsKey, hk] at h
      simp [List.count_cons, ih h, hk]

theorem mem_mergeEdge {α : Type} [DecidableEq α] (e : α) (l : List α) :
    e ∈ mergeEdge e l := by
  by_cases h : e ∈ l <;> simp [mergeEdge, h]

theorem mem_mergeEdge_of_mem {α : Type} [DecidableEq α] {a : α} (e : α) {l : List α}
    (h : a ∈ l) : a ∈ mergeEdge e l := by
  by_cases he : e ∈ l <;> simp [mergeEdge, he, h]

theorem mergeEdge_of_mem {α : Type} [DecidableEq α] {e : α} {l : List α}
    (h : e ∈ l) : mergeEdge e l = l := by
  simp [mergeEdge, h]

theorem mergeEdge_idem {α : Type} [DecidableEq α] (e : α) (l : List α) :
    mergeEdge e (mergeEdge e l) = mergeEdge e l :=
  mergeEdge_of_mem (mem_mergeEdge e l)

theorem mem_mergeEdges_of_mem {α : Type} [DecidableEq α] {a : α} (es : List α)
    {l : List α} (h : a ∈ l) : a ∈ mergeEdges es l := by
  induction es generalizing l with
  | nil => simpa [mergeEdges]
  | cons e t ih =>
    simpa [mergeEdges] using ih (mem_mergeEdge_of_mem e h)

theorem mem_mergeEdges_self {α : Type} [DecidableEq α] {e : α} {es : List α}
    (he : e ∈ es) (l : List α) : e ∈ mergeEdges es l := by
  induction es generalizing l with
  | nil => simp at he
  | cons hd t ih =>
    rcases List.mem_cons.1 he with he | he
    · subst he
      exact mem_mergeEdges_of_mem t (mem_mergeEdge e l)
    · simpa [mergeEdges] using ih he _

theorem mergeEdges_of_subset {α : Type} [DecidableEq α] {es l : List α}
    (h : ∀ e ∈ es, e ∈ l) : mergeEdges es l = l := by
  induction es with
  | nil => rfl
  | cons hd t ih =>
    have hhd : hd ∈ l := h hd (by simp)
    simp only [mergeEdges, List.foldl_cons, mergeEdge_of_mem hhd]
    exact ih (fun e he => h e (by simp [he]))

theorem mergeEdges_idem {α : Type} [DecidableEq α] (es l : List α) :
    mergeEdges es (mergeEdges es l) = mergeEdges es l :=
  mergeEdges_of_subset (fun e he => mem_mergeEdges_self he l)

/-! ### Embedding pipeline lemmas -/

theorem embed_texts_run_eq_map (f : String → Vec) (svc : List String → List Vec)
    (hsvc : ∀ b, svc b = b.map f) (batch_size : Nat) (hbs : 1 ≤ batch_size) :
    ∀ texts, (embed_texts_run svc batch_size texts).1 = texts.map f := by
  have H : ∀ (n : Nat) (texts : List String), texts.length ≤ n →
      (embed_texts_run svc batch_size texts).1 = texts.map f := by
    intro n
    induction n with
    | zero =>
      intro texts hlen
      have hnil : texts = [] := List.eq_nil_of_length_eq_zero (Nat.le_zero.mp hlen)
      subst hnil
      rw [embed_texts_run]
      simp
    | succ n ih =>
      intro texts hlen
      rw [embed_texts_run]
      by_cases hc : batch_size = 0 ∨ texts = []
      · rcases hc with hc | hc
        · omega
        · subst hc
          simp
      · push_neg at hc
        have hpos : 0 < texts.length := List.length_pos.mpr hc.2
        have hdrop : (texts.drop batch_size).length ≤ n := by
          simp only [List.length_drop]
          omega
        rw [dif_neg (not_or.mpr ⟨hc.1, hc.2⟩)]
        simp only [hsvc]
        rw [ih _ hdrop, ← List.map_append, List.take_append_drop]
  exact fun texts => H texts.length texts le_rfl

/-! ### Idempotence of re-ingestion (claim C1) -/

@[simp] theorem write_event_actors (g : WGraph) (e : StreamEvent) :
    (write_event g e).actors = setNode e.actor_id e.actor_name g.actors := rfl

@[simp] theorem write_event_streams (g : WGraph) (e : StreamEvent) :
    (write_event g e).streams = mergeEdge (e.stream_id, e.source) g.streams := rfl

@[simp] theorem write_event_messages (g : WGraph) (e : StreamEvent) :
    (write_event g e).messages =
      setNode e.event_id ⟨some e.content, some e.timestamp, e.embedding, some e.source⟩
        g.messages := rfl

theorem write_event_produced (g : WGraph) (e : StreamEvent) :
    (write_event g e).produced =
      if containsKey e.actor_id (setNode e.actor_id e.actor_name g.actors) = true then
        mergeEdge (e.actor_id, e.event_id) g.produced
      else g.produced := rfl

theorem write_event_has_event (g : WGraph) (e : StreamEvent) :
    (write_event g e).has_event =
      if containsKey e.actor_id (setNode e.actor_id e.actor_name g.actors) = true then
        mergeEdges
          (((mergeEdge (e.stream_id, e.source) g.streams).filter fun s => s.1 = e.stream_id).map
            fun s => (s, e.event_id))
          g.has_event
      else g.has_event := rfl

theorem write_event_replies (g : WGraph) (e : StreamEvent) :
    (write_event g e).replies_to =
      replyEdges
        { g with
          messages :=
            setNode e.event_id ⟨some e.content, some e.timestamp, e.embedding, some e.source⟩
              g.messages }
        e := rfl

theorem replyEdges_only_messages_replies (g g' : WGraph) (e : StreamEvent)
    (hm : g.messages = g'.messages) (hr : g.replies_to = g'.replies_to) :
    replyEdges g e = replyEdges g' e := by
  cases hp : e.parent_event_id with
  | none => simp [replyEdges, hp, hr]
  | some p => simp [replyEdges, hp, hm, hr]

theorem replyEdges_idem (g g' : WGraph) (e : StreamEvent)
    (hm : g'.messages = g.messages) (hr : g'.replies_to = replyEdges g e) :
    replyEdges g' e = replyEdges g e := by
  cases hp : e.parent_event_id with
  | none => simp [replyEdges, hp, hr]
  | some p =>
    by_cases hps : p = ""
    · simp [replyEdges, hp, hps, hr]
    · by_cases hc : (containsKey e.event_id g.messages && containsKey p g.messages) = true
      · simp [replyEdges, hp, hps, hm, hr, hc, mergeEdge_idem]
      · simp [replyEdges, hp, hps, hm, hr, hc]

theorem writeRow_idem (g : BmGraph) (r : Row) :
    writeRow (writeRow g r) r = writeRow g r := by
  cases hp : r.parent_id with
  | none =>
    simp only [writeRow, hp]
    exact BmGraph.ext (mergeEdge_idem _ _) (setNode_setNode _ _ _ _)
      (setNode_setNode _ _ _ _) (mergeEdge_idem _ _) (mergeEdge_idem _ _) rfl
  | some p =>
    have h1 : lookupNode r.message_id
        (mergeNode p emptyMsg
          (setNode r.message_id ⟨some r.body, some r.timestamp, some r.embedding⟩
            g.messages)) =
        some ⟨some r.body, some r.timestamp, some r.embedding⟩ := by
      rw [lookup_mergeNode_of_contains p emptyMsg (contains_setNode_self _ _ _)]
      exact lookup_setNode_self _ _ _
    simp only [writeRow, hp]
    refine BmGraph.ext (mergeEdge_idem _ _) (setNode_setNode _ _ _ _) ?_
      (mergeEdge_idem _ _) (mergeEdge_idem _ _) (mergeEdge_idem _ _)
    rw [setNode_of_lookup_eq h1]
    exact mergeNode_of_contains (contains_mergeNode_self _ _ _)

theorem write_event_idem (g : WGraph) (e : StreamEvent) :
    write_event (write_event g e) e = write_event g e := by
  refine WGraph.ext ?_ ?_ ?_ ?_ ?_ ?_
  · simp [setNode_setNode]
  · simp [mergeEdge_idem]
  · simp [setNode_setNode]
  · rw [write_event_produced, write_event_produced]
    rw [write_event_actors, setNode_setNode]
    by_cases hc :
        containsKey e.actor_id (setNode e.actor_id e.actor_name g.actors) = true
    · simp [hc, mergeEdge_idem]
    · simp [hc]
  · rw [write_event_has_event, write_event_has_event]
    rw [write_event_actors, write_event_streams, setNode_setNode, mergeEdge_idem]
    by_cases hc :
        containsKey e.actor_id (setNode e.actor_id e.actor_name g.actors) = true
    · simp [hc, mergeEdges_idem]
    · simp [hc]
  · rw [write_event_replies, write_event_replies]
    refine replyEdges_idem _ _ e ?_ ?_
    · simp [setNode_setNode]
    · exact write_event_replies g e

/-- C1: re-ingestion is idempotent.  Processing the same event a second
time, through either writer, leaves the graph exactly as after the first
pass: no additional Group, Stream, User, Actor or Message node and no
duplicate SENT, IN_GROUP, REPLIED_TO, PRODUCED, HAS_EVENT or REPLIES_TO
edge, since the second pass produces the identical graph value. -/
theorem reingestion_idempotent :
    (∀ (g : BmGraph) (r : Row), writeRow (writeRow g r) r = writeRow g r) ∧
    (∀ (g : WGraph) (e : StreamEvent), write_event (write_event g e) e = write_event g e) :=
  ⟨writeRow_idem, write_event_idem⟩

/-! ### Embedding pipeline: order preservation and the empty batch -/

theorem embed_texts_run_nil (svc : List String → List Vec) (batch_size : Nat) :
    embed_texts_run svc batch_size [] = ([], []) := by
  rw [embed_texts_run]
  simp

/-- C2: for every input list of N texts and every batch size of at least 1,
assuming the embedding service returns one vector per batch input in input
order (svc b = b.map f), the pipeline returns exactly N vectors and the
i-th output vector is the embedding of the i-th input text. -/
theorem embedding_pipeline_order (f : String → Vec) (svc : List String → List Vec)
    (hsvc : ∀ b, svc b = b.map f) (batch_size : Nat) (hbs : 1 ≤ batch_size)
    (texts : List String) :
    (embed_texts svc batch_size texts).length = texts.length ∧
    embed_texts svc batch_size texts = texts.map f ∧
    ∀ i : Nat, (embed_texts svc batch_size texts)[i]? = (texts[i]?).map f := by
  have h : embed_texts svc batch_size texts = texts.map f :=
    embed_texts_run_eq_map f svc hsvc batch_size hbs texts
  refine ⟨?_, h, ?_⟩
  · simp [h]
  · intro i
    simp [h]

/-- Witness for C2 at batch size 2 on three texts, with the service that
embeds a text as the singleton of its length. -/
theorem embedding_pipeline_order_witness :
    1 ≤ 2 ∧
    embed_texts (fun b => b.map fun s => ([(s.length : Int)] : Vec)) 2 ["a", "bb", "ccc"] =
      ["a", "bb", "ccc"].map fun s => ([(s.length : Int)] : Vec) :=
  ⟨by decide,
    (embedding_pipeline_order (fun s => ([(s.length : Int)] : Vec)) _
      (fun _ => rfl) 2 (by decide) ["a", "bb", "ccc"]).2.1⟩

/-- C10: on the empty input list, for any batch size of at least 1,
embed_texts returns the empty list and posts no request at all to the
embedding service. -/
theorem embed_texts_empty_no_request (svc : List String → List Vec) (batch_size : Nat)
    (hbs : 1 ≤ batch_size) :
    embed_texts svc batch_size [] = [] ∧ embed_requests svc batch_size [] = [] := by
  constructor <;> simp [embed_texts, embed_requests, embed_texts_run_nil]

/-- Witness for C10 at the default batch size 64. -/
theorem embed_texts_empty_no_request_witness :
    1 ≤ 64 ∧
    (embed_texts (fun _ => ([] : List Vec)) 64 [] = [] ∧
      embed_requests (fun _ => ([] : List Vec)) 64 [] = []) :=
  ⟨by decide, embed_texts_empty_no_request _ 64 (by decide)⟩

/-! ### Message attributes under identity-colliding re-ingestion (claim C3) -/

theorem lookup_writeRow_messages (g : BmGraph) (r : Row) :
    lookupNode r.message_id (writeRow g r).messages =
      some ⟨some r.body, some r.timestamp, some r.embedding⟩ := by
  cases hp : r.parent_id with
  | none =>
    simp only [writeRow, hp]
    exact lookup_setNode_self _ _ _
  | some p =>
    simp only [writeRow, hp]
    rw [lookup_mergeNode_of_contains p emptyMsg (contains_setNode_self _ _ _)]
    exact lookup_setNode_self _ _ _

theorem lookup_write_event_messages (g : WGraph) (e : StreamEvent) :
    lookupNode e.event_id (write_event g e).messages =
      some ⟨some e.content, some e.timestamp, e.embedding, some e.source⟩ := by
  rw [write_event_messages]
  exact lookup_setNode_self _ _ _

/-- C3 as stated is false on the code: re-ingesting message id m1 with a
divergent body overwrites the stored body and timestamp (the SET clause is
last-write-wins), and write_event re-ingestion of the same id with an
absent embedding clears the previously stored embedding vector. -/
theorem first_write_wins_counterexample :
    lookupNode "m1"
      (writeRow (writeRow BmGraph.empty ⟨"g1", "u1", "Alice", "m1", none, 100, "hello", [1]⟩)
        ⟨"g1", "u1", "Alice", "m1", none, 200, "changed", [2]⟩).messages =
      some ⟨some "changed", some 200, some [2]⟩ ∧
    lookupNode "m1"
      (writeRow (writeRow BmGraph.empty ⟨"g1", "u1", "Alice", "m1", none, 100, "hello", [1]⟩)
        ⟨"g1", "u1", "Alice", "m1", none, 200, "changed", [2]⟩).messages ≠
      some ⟨some "hello", some 100, some [1]⟩ ∧
    (lookupNode "m1"
      (write_event
        (write_event WGraph.empty
          ⟨"whatsapp", "s1", "m1", "u1", some "Alice", 100, "hello", none, some [5]⟩)
        ⟨"whatsapp", "s1", "m1", "u1", some "Alice", 100, "hello", none, none⟩).messages).map
      WMsgProps.embedding = some none := by decide

/-- C3 amended: identity-colliding re-ingestion is last-write-wins on the
stored body and timestamp, and the embedding property is overwritten with
the incoming value — in particular write_event re-ingestion of an event
carrying no embedding clears a previously set vector.  No type property is
stored by either writer. -/
theorem reingest_last_write_wins (g : BmGraph) (r r' : Row)
    (hid : r'.message_id = r.message_id) (wg : WGraph) (e e' : StreamEvent)
    (hid2 : e'.event_id = e.event_id) (hemb : e'.embedding = none) :
    lookupNode r.message_id (writeRow (writeRow g r) r').messages =
      some ⟨some r'.body, some r'.timestamp, some r'.embedding⟩ ∧
    lookupNode e.event_id (write_event (write_event wg e) e').messages =
      some ⟨some e'.content, some e'.timestamp, none, some e'.source⟩ := by
  constructor
  · rw [← hid]
    exact lookup_writeRow_messages _ _
  · rw [← hid2, ← hemb]
    exact lookup_write_event_messages _ _

/-- Witness for the amended C3 at concrete colliding events. -/
theorem reingest_last_write_wins_witness :
    lookupNode "m1"
      (writeRow (writeRow BmGraph.empty ⟨"g1", "u1", "Alice", "m1", none, 100, "hello", [1]⟩)
        ⟨"g2", "u2", "Bob", "m1", none, 200, "changed", [2]⟩).messages =
      some ⟨some "changed", some 200, some [2]⟩ ∧
    lookupNode "m1"
      (write_event
        (write_event WGraph.empty
          ⟨"whatsapp", "s1", "m1", "u1", some "Alice", 100, "hello", none, some [5]⟩)
        ⟨"whatsapp", "s1", "m1", "u1", some "Alice", 150, "later", none, none⟩).messages =
      some ⟨some "later", some 150, none, some "whatsapp"⟩ :=
  reingest_last_write_wins BmGraph.empty
    ⟨"g1", "u1", "Alice", "m1", none, 100, "hello", [1]⟩
    ⟨"g2", "u2", "Bob", "m1", none, 200, "changed", [2]⟩ rfl
    WGraph.empty
    ⟨"whatsapp", "s1", "m1", "u1", some "Alice", 100, "hello", none, some [5]⟩
    ⟨"whatsapp", "s1", "m1", "u1", some "Alice", 150, "later", none, none⟩ rfl rfl

/-! ### Reply edge direction (claim C4) -/

theorem contains_setNode_ne {V : Type} {k' k : String} (hne : k' ≠ k) (v : V)
    (l : List (String × V)) : containsKey k' (setNode k v l) = containsKey k' l := by
  induction l with
  | nil =>
    simp [setNode, containsKey, Ne.symm hne]
  | cons hd t ih =>
    obtain ⟨ka, va⟩ := hd
    by_cases hk : ka = k
    · subst hk
      simp [setNode, containsKey, Ne.symm hne]
    · simp [setNode, containsKey, hk, ih]

theorem write_event_replies_parent (wg : WGraph) (e : StreamEvent) (q : String)
    (hq : e.parent_event_id = some q) (hq0 : q ≠ "")
    (hqm : containsKey q
      (setNode e.event_id ⟨some e.content, some e.timestamp, e.embedding, some e.source⟩
        wg.messages) = true) :
    (write_event wg e).replies_to = mergeEdge (e.event_id, q) wg.replies_to := by
  rw [write_event_replies]
  simp [replyEdges, hq, hq0, contains_setNode_self, hqm]

theorem write_event_replies_none (wg : WGraph) (e : StreamEvent)
    (he : e.parent_event_id = none) :
    (write_event wg e).replies_to = wg.replies_to := by
  rw [write_event_replies]
  simp [replyEdges, he]

@[simp] theorem wi_write_batch_messages (g : WIGraph) (e : WIEvent) :
    (wi_write_batch g e).messages =
      setNode e.message_id ⟨some e.text, some e.timestamp, some e.embedding⟩ g.messages := rfl

theorem wi_write_batch_reply_parent (ig : WIGraph) (ie : WIEvent) (s : String)
    (hs : ie.parent_id = some s) (hs0 : s ≠ "")
    (hsm : containsKey s
      (setNode ie.message_id ⟨some ie.text, some ie.timestamp, some ie.embedding⟩
        ig.messages) = true) :
    (wi_write_batch ig ie).reply_to = mergeEdge (ie.message_id, s) ig.reply_to := by
  simp [wi_write_batch, hs, hs0, contains_setNode_self, hsm]

theorem wi_write_batch_reply_none (ig : WIGraph) (ie : WIEvent)
    (hie : ie.parent_id = none) :
    (wi_write_batch ig ie).reply_to = ig.reply_to := by
  simp [wi_write_batch, hie]

/-- C4 as stated is false on ingest_whatsapp_3.write_batch: for the row
with message id m1 replying to parent p0, the REPLIED_TO edge has the
parent p0 as its source and the replying message m1 as its target — not
the claimed child-to-parent direction. -/
theorem reply_direction_counterexample :
    ("m1", "p0") ∉
      (writeRow BmGraph.empty
        ⟨"g1", "u1", "Alice", "m1", some "p0", 100, "hi", [1]⟩).replied_to ∧
    ("p0", "m1") ∈
      (writeRow BmGraph.empty
        ⟨"g1", "u1", "Alice", "m1", some "p0", 100, "hi", [1]⟩).replied_to := by decide

/-- C4 amended: GraphWriter.write_event and ingestion.py write_batch direct
the reply edge from the replying message to the referenced parent (created
only when the truthy parent reference resolves to an existing Message
node), and events without a parent reference create no reply edge; but
Benchmark write_batch directs its REPLIED_TO edge from the parent to the
replying message. -/
theorem reply_edge_direction (g : BmGraph) (r : Row) (p : String)
    (hp : r.parent_id = some p)
    (g0 : BmGraph) (r0 : Row) (hr0 : r0.parent_id = none)
    (wg : WGraph) (e : StreamEvent) (q : String) (hq : e.parent_event_id = some q)
    (hq0 : q ≠ "") (hqm : containsKey q (write_event wg e).messages = true)
    (wg0 : WGraph) (e0 : StreamEvent) (he0 : e0.parent_event_id = none)
    (ig : WIGraph) (ie : WIEvent) (s : String) (hs : ie.parent_id = some s)
    (hs0 : s ≠ "") (hsm : containsKey s (wi_write_batch ig ie).messages = true)
    (ig0 : WIGraph) (ie0 : WIEvent) (hie0 : ie0.parent_id = none) :
    (p, r.message_id) ∈ (writeRow g r).replied_to ∧
    (writeRow g0 r0).replied_to = g0.replied_to ∧
    (e.event_id, q) ∈ (write_event wg e).replies_to ∧
    (write_event wg0 e0).replies_to = wg0.replies_to ∧
    (ie.message_id, s) ∈ (wi_write_batch ig ie).reply_to ∧
    (wi_write_batch ig0 ie0).reply_to = ig0.reply_to := by
  rw [write_event_messages] at hqm
  rw [wi_write_batch_messages] at hsm
  refine ⟨?_, ?_, ?_, ?_, ?_, ?_⟩
  · simp only [writeRow, hp]
    exact mem_mergeEdge _ _
  · simp only [writeRow, hr0]
  · rw [write_event_replies_parent wg e q hq hq0 hqm]
    exact mem_mergeEdge _ _
  · exact write_event_replies_none wg0 e0 he0
  · rw [wi_write_batch_reply_parent ig ie s hs hs0 hsm]
    exact mem_mergeEdge _ _
  · exact wi_write_batch_reply_none ig0 ie0 hie0

/-- Witness for the amended C4 at concrete graphs holding the parent. -/
theorem reply_edge_direction_witness :
    ("p0", "m1") ∈
      (writeRow BmGraph.empty
        ⟨"g1", "u1", "Alice", "m1", some "p0", 100, "hi", [1]⟩).replied_to ∧
    (writeRow BmGraph.empty
      ⟨"g1", "u1", "Alice", "m2", none, 100, "hi", [1]⟩).replied_to = [] ∧
    ("m1", "p0") ∈
      (write_event (⟨[], [], [("p0", ⟨none, none, none, none⟩)], [], [], []⟩ : WGraph)
        ⟨"whatsapp", "s1", "m1", "u1", some "Alice", 100, "hi", some "p0", none⟩).replies_to ∧
    (write_event WGraph.empty
      ⟨"whatsapp", "s1", "m2", "u1", some "Alice", 100, "hi", none, none⟩).replies_to = [] ∧
    ("m1", "p0") ∈
      (wi_write_batch (⟨[], [], [("p0", ⟨none, none, none⟩)], [], [], []⟩ : WIGraph)
        ⟨"c1", "m1", "u1", 100, "hi", some "p0", [("u1", "Alice")], [1]⟩).reply_to ∧
    (wi_write_batch WIGraph.empty
      ⟨"c1", "m2", "u1", 100, "hi", none, [("u1", "Alice")], [1]⟩).reply_to = [] :=
  reply_edge_direction BmGraph.empty
    ⟨"g1", "u1", "Alice", "m1", some "p0", 100, "hi", [1]⟩ "p0" rfl
    BmGraph.empty ⟨"g1", "u1", "Alice", "m2", none, 100, "hi", [1]⟩ rfl
    (⟨[], [], [("p0", ⟨none, none, none, none⟩)], [], [], []⟩ : WGraph)
    ⟨"whatsapp", "s1", "m1", "u1", some "Alice", 100, "hi", some "p0", none⟩ "p0" rfl
    (by decide) (by decide)
    WGraph.empty ⟨"whatsapp", "s1", "m2", "u1", some "Alice", 100, "hi", none, none⟩ rfl
    (⟨[], [], [("p0", ⟨none, none, none⟩)], [], [], []⟩ : WIGraph)
    ⟨"c1", "m1", "u1", 100, "hi", some "p0", [("u1", "Alice")], [1]⟩ "p0" rfl
    (by decide) (by decide)
    WIGraph.empty ⟨"c1", "m2", "u1", 100, "hi", none, [("u1", "Alice")], [1]⟩ rfl

/-! ### Placeholder parent nodes (claim C5) -/

/-- C5 as stated is false on GraphWriter.write_event: ingesting a reply
whose parent p0 has not yet been written creates no placeholder Message
node for p0, and no reply edge either. -/
theorem placeholder_node_counterexample :
    containsKey "p0"
      (write_event WGraph.empty
        ⟨"whatsapp", "s1", "m1", "u1", some "Alice", 100, "hi", some "p0", some [1]⟩).messages =
      false ∧
    (write_event WGraph.empty
      ⟨"whatsapp", "s1", "m1", "u1", some "Alice", 100, "hi", some "p0", some [1]⟩).replies_to =
      [] := by decide

/-- C5 amended: Benchmark write_batch does create a minimal placeholder
Message node (no properties) for an unseen parent id and a later ingestion
of the real parent enriches that same node, leaving exactly one node with
the parent id; GraphWriter.write_event creates no placeholder — when the
referenced parent is missing the MATCH finds nothing and the reply edge is
silently skipped. -/
theorem placeholder_parent_node (g : BmGraph) (r : Row) (pid : String) (r' : Row)
    (hp : r.parent_id = some pid) (habs : containsKey pid g.messages = false)
    (hne : pid ≠ r.message_id) (hrid : r'.message_id = pid)
    (wg : WGraph) (e : StreamEvent) (q : String) (hq : e.parent_event_id = some q)
    (hqa : containsKey q wg.messages = false) (hqe : q ≠ e.event_id) :
    lookupNode pid (writeRow g r).messages = some emptyMsg ∧
    ((writeRow g r).messages.map Prod.fst).count pid = 1 ∧
    lookupNode pid (writeRow (writeRow g r) r').messages =
      some ⟨some r'.body, some r'.timestamp, some r'.embedding⟩ ∧
    ((writeRow (writeRow g r) r').messages.map Prod.fst).count pid = 1 ∧
    containsKey q (write_event wg e).messages = false ∧
    (write_event wg e).replies_to = wg.replies_to := by
  have habs0 : containsKey pid
      (setNode r.message_id ⟨some r.body, some r.timestamp, some r.embedding⟩ g.messages) =
      false := by
    rw [contains_setNode_ne hne]
    exact habs
  have hkeys1 : ((writeRow g r).messages.map Prod.fst).count pid = 1 := by
    simp only [writeRow, hp]
    rw [keys_mergeNode]
    rw [if_neg (by simp [habs0])]
    rw [List.count_append]
    rw [keys_setNode]
    by_cases hcm : containsKey r.message_id g.messages = true
    · simp [hcm, count_keys_eq_zero_of_not_contains habs]
    · simp [hcm, count_keys_eq_zero_of_not_contains habs, List.count_cons,
        Ne.symm hne, hne]
  have hq' : containsKey q (write_event wg e).messages = false := by
    rw [write_event_messages, contains_setNode_ne hqe]
    exact hqa
  refine ⟨?_, hkeys1, ?_, ?_, hq', ?_⟩
  · simp only [writeRow, hp]
    exact lookup_mergeNode_of_not_contains emptyMsg habs0
  · rw [← hrid]
    exact lookup_writeRow_messages _ _
  · have hcontains1 : containsKey pid (writeRow g r).messages = true := by
      simp only [writeRow, hp]
      exact contains_mergeNode_self _ _ _
    generalize hG : writeRow g r = G1 at hkeys1 hcontains1 ⊢
    cases hp' : r'.parent_id with
    | none =>
      simp only [writeRow, hp']
      rw [keys_setNode, if_pos (by rw [hrid]; exact hcontains1)]
      exact hkeys1
    | some p' =>
      simp only [writeRow, hp']
      have hinner :
          ((setNode r'.message_id ⟨some r'.body, some r'.timestamp, some r'.embedding⟩
            G1.messages).map Prod.fst).count pid = 1 := by
        rw [keys_setNode, if_pos (by rw [hrid]; exact hcontains1)]
        exact hkeys1
      rw [keys_mergeNode]
      by_cases hcp : containsKey p'
          (setNode r'.message_id ⟨some r'.body, some r'.timestamp, some r'.embedding⟩
            G1.messages) = true
      · rw [if_pos hcp]
        exact hinner
      · have hppid : p' ≠ pid := by
          intro hcontra
          subst hcontra
          rw [← hrid] at hcp
          exact hcp (contains_setNode_self _ _ _)
        rw [if_neg hcp, List.count_append]
        simp [hinner, hppid, List.count_cons, Ne.symm hppid]
  · rw [write_event_replies]
    by_cases hqs : q = ""
    · simp [replyEdges, hq, hqs]
    · have : containsKey q
          (setNode e.event_id ⟨some e.content, some e.timestamp, e.embedding, some e.source⟩
            wg.messages) = false := by
        rw [contains_setNode_ne hqe]
        exact hqa
      simp [replyEdges, hq, hqs, this]

/-- Witness for the amended C5 at a concrete forward reference. -/
theorem placeholder_parent_node_witness :
    lookupNode "p0"
      (writeRow BmGraph.empty
        ⟨"g1", "u1", "Alice", "m1", some "p0", 100, "hi", [1]⟩).messages = some emptyMsg ∧
    (((writeRow BmGraph.empty
        ⟨"g1", "u1", "Alice", "m1", some "p0", 100, "hi", [1]⟩).messages.map
      Prod.fst).count "p0" = 1) ∧
    lookupNode "p0"
      (writeRow (writeRow BmGraph.empty ⟨"g1", "u1", "Alice", "m1", some "p0", 100, "hi", [1]⟩)
        ⟨"g1", "u2", "Bob", "p0", none, 50, "the parent", [2]⟩).messages =
      some ⟨some "the parent", some 50, some [2]⟩ ∧
    (((writeRow (writeRow BmGraph.empty ⟨"g1", "u1", "Alice", "m1", some "p0", 100, "hi", [1]⟩)
        ⟨"g1", "u2", "Bob", "p0", none, 50, "the parent", [2]⟩).messages.map
      Prod.fst).count "p0" = 1) ∧
    containsKey "p0"
      (write_event WGraph.empty
        ⟨"whatsapp", "s1", "m1", "u1", some "Alice", 100, "hi", some "p0", none⟩).messages =
      false ∧
    (write_event WGraph.empty
      ⟨"whatsapp", "s1", "m1", "u1", some "Alice", 100, "hi", some "p0", none⟩).replies_to =
      WGraph.empty.replies_to :=
  placeholder_parent_node BmGraph.empty
    ⟨"g1", "u1", "Alice", "m1", some "p0", 100, "hi", [1]⟩ "p0"
    ⟨"g1", "u2", "Bob", "p0", none, 50, "the parent", [2]⟩ rfl (by decide) (by decide) rfl
    WGraph.empty
    ⟨"whatsapp", "s1", "m1", "u1", some "Alice", 100, "hi", some "p0", none⟩ "p0" rfl
    (by decide) (by decide)

/-! ### Rendering templates (claim C6) -/

/-- C6 as stated is false on the code at two points: an unrecognized type
gif renders as "[Gif]" — main capitalizes the type tag — not as the
claimed "[gif]"; and an image with an empty caption renders as "[Image]" —
the f-string result is stripped — not as the claimed template text
"[Image] " with its trailing space. -/
theorem render_template_counterexample :
    renderBody [] ⟨"gif", "u1", none, none, none, none, none, none⟩ = some "[Gif]" ∧
    renderBody [] ⟨"gif", "u1", none, none, none, none, none, none⟩ ≠ some "[gif]" ∧
    renderBody [] ⟨"image", "u1", none, some (some ""), none, none, none, none⟩ =
      some "[Image]" ∧
    renderBody [] ⟨"image", "u1", none, some (some ""), none, none, none, none⟩ ≠
      some "[Image] " := by decide

/-- C6 amended: the renderer follows the per-type templates of the claim
with two amendments the code forces: the image, document and video
renderings are the template output stripped of surrounding whitespace (so
an empty caption yields "[Image]" with no trailing space), and the
fallback for an unrecognized type capitalizes the type tag, rendering
"[Gif]" rather than "[gif]".  No unrecognized-type event is dropped: its
rendered body is never empty, so the `if not body` filter keeps it. -/
theorem render_templates (contacts : List (String × String)) (sender : String)
    (b cap vcap : String) (d : DocObj) (t : String)
    (ht : t ∉ (["text", "image", "document", "system", "reaction", "video", "audio",
      "sticker"] : List String)) :
    renderBody contacts ⟨"text", sender, some (some b), none, none, none, none, none⟩ =
      some b ∧
    renderBody contacts ⟨"image", sender, none, some (some cap), none, none, none, none⟩ =
      some (pyStrip ("[Image] " ++ cap)) ∧
    renderBody contacts ⟨"document", sender, none, none, some d, none, none, none⟩ =
      some (pyStrip
        ("[Document: " ++ d.filename.getD "unknown_file" ++ "] " ++ d.caption.getD "")) ∧
    renderBody contacts ⟨"video", sender, none, none, none, none, none, some (some vcap)⟩ =
      some (pyStrip ("[Video] " ++ vcap)) ∧
    renderBody contacts ⟨"audio", sender, none, none, none, none, none, none⟩ =
      some "[Audio] Voice Message" ∧
    renderBody contacts ⟨"sticker", sender, none, none, none, none, none, none⟩ =
      some "[Sticker]" ∧
    renderBody contacts ⟨t, sender, none, none, none, none, none, none⟩ =
      some ("[" ++ pyCapitalize t ++ "]") ∧
    bodyKept (renderBody contacts ⟨t, sender, none, none, none, none, none, none⟩) = true := by
  have hne : t ≠ "text" ∧ t ≠ "image" ∧ t ≠ "document" ∧ t ≠ "system" ∧ t ≠ "reaction" ∧
      t ≠ "video" ∧ t ≠ "audio" ∧ t ≠ "sticker" := by
    refine ⟨?_, ?_, ?_, ?_, ?_, ?_, ?_, ?_⟩ <;> intro h <;> exact ht (by simp [h])
  obtain ⟨h1, h2, h3, h4, h5, h6, h7, h8⟩ := hne
  have hfall : renderBody contacts ⟨t, sender, none, none, none, none, none, none⟩ =
      some ("[" ++ pyCapitalize t ++ "]") := by
    simp only [renderBody]
    rw [if_neg h1, if_neg h2, if_neg h3, if_neg h4, if_neg h5, if_neg h6, if_neg h7,
      if_neg h8]
  have hbody : ("[" ++ pyCapitalize t ++ "]") ≠ "" := by
    intro hcontra
    have hlen := congrArg String.length hcontra
    rw [String.length_append, String.length_append] at hlen
    have hopen : "[".length = 1 := rfl
    have hclose : "]".length = 1 := rfl
    have hnil : "".length = 0 := rfl
    rw [hopen, hclose, hnil] at hlen
    omega
  refine ⟨rfl, rfl, rfl, rfl, rfl, rfl, hfall, ?_⟩
  rw [hfall]
  simp [bodyKept, hbody]

/-- Witness for the amended C6 at the spec examples, with the unrecognized
type gif. -/
theorem render_templates_witness :
    renderBody [] ⟨"text", "u1", some (some "hello"), none, none, none, none, none⟩ =
      some "hello" ∧
    renderBody [] ⟨"image", "u1", none, some (some ""), none, none, none, none⟩ =
      some "[Image]" ∧
    renderBody [] ⟨"document", "u1", none, none, some ⟨some "r.pdf", some "note"⟩,
      none, none, none⟩ = some "[Document: r.pdf] note" ∧
    renderBody [] ⟨"video", "u1", none, none, none, none, none, some (some "clip")⟩ =
      some "[Video] clip" ∧
    renderBody [] ⟨"audio", "u1", none, none, none, none, none, none⟩ =
      some "[Audio] Voice Message" ∧
    renderBody [] ⟨"sticker", "u1", none, none, none, none, none, none⟩ =
      some "[Sticker]" ∧
    renderBody [] ⟨"gif", "u1", none, none, none, none, none, none⟩ = some "[Gif]" ∧
    bodyKept (renderBody [] ⟨"gif", "u1", none, none, none, none, none, none⟩) = true := by
  have h := render_templates [] "u1" "hello" "" "clip" ⟨some "r.pdf", some "note"⟩ "gif"
    (by decide)
  refine ⟨h.1, ?_, ?_, ?_, h.2.2.2.2.1, h.2.2.2.2.2.1, h.2.2.2.2.2.2.1,
    h.2.2.2.2.2.2.2⟩
  · rw [h.2.1]
    decide
  · rw [h.2.2.1]
    decide
  · rw [h.2.2.2.1]
    decide

/-! ### Malformed records abort the batch (claim C7) -/

theorem isOk_exceptMap {ε α β : Type} (f : α → β) (x : Except ε α) :
    isOk (x.map f) = isOk x := by
  cases x <;> rfl

theorem isOk_mapE_false {α β : Type} (f : α → Except String β) {x : α} {l : List α}
    (hx : x ∈ l) (hf : isOk (f x) = false) : isOk (mapE f l) = false := by
  induction l with
  | nil => simp at hx
  | cons hd tl ih =>
    rcases List.mem_cons.1 hx with h | h
    · subst h
      cases hfx : f x with
      | error err => simp [mapE, hfx, isOk]
      | ok y =>
        rw [hfx] at hf
        simp [isOk] at hf
    · cases hhd : f hd with
      | error err => simp [mapE, hhd, isOk]
      | ok y =>
        have htl := ih h
        cases hm : mapE f tl with
        | error err => simp [mapE, hhd, hm, isOk]
        | ok ys =>
          rw [hm] at htl
          simp [isOk] at htl

theorem extractMsg_malformed (cid : String) (cts : List (String × String)) (m : RawMsg)
    (hmal : malformedMsg m = true) : isOk (extractMsg cid cts m) = false := by
  cases hid : m.id with
  | none =>
    simp only [extractMsg, require, hid]
    rfl
  | some mid =>
    cases hsd : m.sender with
    | none =>
      simp only [extractMsg, require, hid, hsd]
      rfl
    | some sd =>
      cases hts : m.timestamp with
      | none =>
        simp only [extractMsg, require, hid, hsd, hts]
        rfl
      | some ts =>
        cases htx : m.text with
        | none =>
          simp only [extractMsg, require, hid, hsd, hts, htx]
          rfl
        | some tb =>
          cases htb : tb with
          | none =>
            subst htb
            simp only [extractMsg, require, hid, hsd, hts, htx]
            rfl
          | some body =>
            subst htb
            simp [malformedMsg, hid, hsd, hts, htx, missingTextBody] at hmal

theorem parseMsg_malformed (sid : String) (cts : List (String × String)) (m : RawMsg)
    (hmal : malformedMsg m = true) : isOk (parseMsg sid cts m) = false := by
  cases hid : m.id with
  | none =>
    simp only [parseMsg, require, hid]
    rfl
  | some mid =>
    cases hsd : m.sender with
    | none =>
      simp only [parseMsg, require, hid, hsd]
      rfl
    | some sd =>
      cases hts : m.timestamp with
      | none =>
        simp only [parseMsg, require, hid, hsd, hts]
        rfl
      | some ts =>
        cases htx : m.text with
        | none =>
          simp only [parseMsg, require, hid, hsd, hts, htx]
          rfl
        | some tb =>
          cases htb : tb with
          | none =>
            subst htb
            simp only [parseMsg, require, hid, hsd, hts, htx]
            rfl
          | some body =>
            subst htb
            simp [malformedMsg, hid, hsd, hts, htx, missingTextBody] at hmal

/-- C7 as stated is false on the code: a batch holding a well-formed
message m1 and a malformed message m2 (no text payload) raises KeyError
and aborts the whole batch — no event is produced for the well-formed
record, in extract_events and in WhatsAppAdapter.parse alike. -/
theorem malformed_skip_counterexample :
    extract_events
      [⟨[⟨"conv1", [⟨[("u1", "Alice")],
        [⟨some "m1", some "u1", some 100, some (some "hi"), none⟩,
         ⟨some "m2", some "u1", some 101, none, none⟩]⟩]⟩]⟩] =
      Except.error "KeyError: text" ∧
    isOk (extract_events
      [⟨[⟨"conv1", [⟨[("u1", "Alice")],
        [⟨some "m1", some "u1", some 100, some (some "hi"), none⟩,
         ⟨some "m2", some "u1", some 101, none, none⟩]⟩]⟩]⟩]) = false ∧
    parse
      [⟨[⟨"conv1", [⟨[("u1", "Alice")],
        [⟨some "m1", some "u1", some 100, some (some "hi"), none⟩,
         ⟨some "m2", some "u1", some 101, none, none⟩]⟩]⟩]⟩] =
      Except.error "KeyError: text" :=
  ⟨rfl, rfl, rfl⟩

/-- C7 amended: one malformed message (missing id, sender, timestamp, or
text body) anywhere in the input makes extract_events and
WhatsAppAdapter.parse raise KeyError, aborting the whole batch with no
partial result — the offending record is not skipped. -/
theorem malformed_aborts_batch (payload : List RawRecord) (rec : RawRecord)
    (en : RawEntry) (ch : RawChange) (m : RawMsg)
    (hrec : rec ∈ payload) (hen : en ∈ rec.entry) (hch : ch ∈ en.changes)
    (hm : m ∈ ch.messages) (hmal : malformedMsg m = true) :
    isOk (extract_events payload) = false ∧ isOk (parse payload) = false := by
  constructor
  · rw [extract_events, isOk_exceptMap]
    refine isOk_mapE_false _ hrec ?_
    rw [extractRecord, isOk_exceptMap]
    refine isOk_mapE_false _ hen ?_
    rw [extractEntry, isOk_exceptMap]
    refine isOk_mapE_false _ hch ?_
    rw [extractChange]
    exact isOk_mapE_false _ hm (extractMsg_malformed _ _ _ hmal)
  · rw [parse, isOk_exceptMap]
    refine isOk_mapE_false _ hrec ?_
    rw [parseRecord, isOk_exceptMap]
    refine isOk_mapE_false _ hen ?_
    rw [parseEntry, isOk_exceptMap]
    refine isOk_mapE_false _ hch ?_
    rw [parseChange]
    exact isOk_mapE_false _ hm (parseMsg_malformed _ _ _ hmal)

/-- Witness for the amended C7 at the concrete two-message batch. -/
theorem malformed_aborts_batch_witness :
    isOk (extract_events
      [⟨[⟨"conv1", [⟨[("u1", "Alice")],
        [⟨some "m1", some "u1", some 100, some (some "hi"), none⟩,
         ⟨some "m2", some "u1", some 101, none, none⟩]⟩]⟩]⟩]) = false ∧
    isOk (parse
      [⟨[⟨"conv1", [⟨[("u1", "Alice")],
        [⟨some "m1", some "u1", some 100, some (some "hi"), none⟩,
         ⟨some "m2", some "u1", some 101, none, none⟩]⟩]⟩]⟩]) = false :=
  malformed_aborts_batch
    [⟨[⟨"conv1", [⟨[("u1", "Alice")],
      [⟨some "m1", some "u1", some 100, some (some "hi"), none⟩,
       ⟨some "m2", some "u1", some 101, none, none⟩]⟩]⟩]⟩]
    ⟨[⟨"conv1", [⟨[("u1", "Alice")],
      [⟨some "m1", some "u1", some 100, some (some "hi"), none⟩,
       ⟨some "m2", some "u1", some 101, none, none⟩]⟩]⟩]⟩
    ⟨"conv1", [⟨[("u1", "Alice")],
      [⟨some "m1", some "u1", some 100, some (some "hi"), none⟩,
       ⟨some "m2", some "u1", some 101, none, none⟩]⟩]⟩
    ⟨[("u1", "Alice")],
      [⟨some "m1", some "u1", some 100, some (some "hi"), none⟩,
       ⟨some "m2", some "u1", some 101, none, none⟩]⟩
    ⟨some "m2", some "u1", some 101, none, none⟩
    (by decide) (by decide) (by decide) (by decide) (by decide)

/-! ### Answer extraction (claim C8) -/

theorem str_data_append (a b : String) : (a ++ b).data = a.data ++ b.data := by
  cases a
  cases b
  rfl

theorem ne_empty_of_data_ne_nil {s : String} (h : s.data ≠ []) : s ≠ "" := by
  intro hc
  apply h
  rw [hc]

theorem toDigitsCore_length (b : Nat) : ∀ (f n : Nat) (ds : List Char),
    ds.length ≤ (Nat.toDigitsCore b f n ds).length := by
  intro f
  induction f with
  | zero =>
    intro n ds
    exact Nat.le_refl _
  | succ f ih =>
    intro n ds
    simp only [Nat.toDigitsCore]
    split
    · simp
    · exact le_trans (Nat.le_succ ds.length) (ih (n / b) ((n % b).digitChar :: ds))

theorem nat_repr_ne_empty (n : Nat) : Nat.repr n ≠ "" := by
  apply ne_empty_of_data_ne_nil
  show (Nat.toDigits 10 n).asString.data ≠ []
  intro h
  have hnil : Nat.toDigits 10 n = [] := h
  have hlen := toDigitsCore_length 10 n (n / 10) [Nat.digitChar (n % 10)]
  unfold Nat.toDigits at hnil
  simp only [Nat.toDigitsCore] at hnil
  by_cases hz : n / 10 = 0
  · rw [if_pos hz] at hnil
    exact List.cons_ne_nil _ _ hnil
  · rw [if_neg hz] at hnil
    rw [hnil] at hlen
    simp at hlen

theorem int_toString_ne_empty (n : Int) : toString n ≠ "" := by
  show Int.repr n ≠ ""
  cases n with
  | ofNat m => exact nat_repr_ne_empty m
  | negSucc m =>
    apply ne_empty_of_data_ne_nil
    rw [show Int.repr (Int.negSucc m) = "-" ++ Nat.repr (m + 1) from rfl]
    rw [str_data_append]
    simp

/-- A truthy model value never stringifies to the empty string, which is
why the fallback branch of the extraction runs exactly when no priority
key held a truthy value. -/
theorem pyStr_truthy_ne_empty : ∀ {v : JVal}, pyTruthy v = true → pyStr v ≠ "" := by
  intro v
  cases v with
  | jnull => simp [pyTruthy]
  | jbool b =>
    cases b
    · simp [pyTruthy]
    · intro _
      decide
  | jnum n =>
    intro _
    exact int_toString_ne_empty n
  | jstr s =>
    intro hs
    simpa [pyStr, pyTruthy] using hs
  | jarr xs =>
    intro _
    apply ne_empty_of_data_ne_nil
    rw [show pyStr (JVal.jarr xs) = "[" ++ pyReprList xs ++ "]" from rfl]
    rw [str_data_append, str_data_append]
    simp
  | jobj fs =>
    intro _
    apply ne_empty_of_data_ne_nil
    rw [show pyStr (JVal.jobj fs) = "\x7b" ++ pyReprFields fs ++ "\x7d" from rfl]
    rw [str_data_append, str_data_append]
    simp

theorem firstKeyAnswer_eq (fields : List (String × JVal)) : ∀ ks : List String,
    firstKeyAnswer fields ks =
      ((ks.filter fun k => ((lookupNode k fields).map pyTruthy).getD false).head?).map
        fun k => pyStr ((lookupNode k fields).getD JVal.jnull) := by
  intro ks
  induction ks with
  | nil => rfl
  | cons k ks ih =>
    cases hl : lookupNode k fields with
    | none => simp [firstKeyAnswer, List.filter_cons, hl, ih]
    | some v =>
      by_cases hv : pyTruthy v = true
      · simp [firstKeyAnswer, List.filter_cons, hl, hv]
      · simp [firstKeyAnswer, List.filter_cons, hl, hv, ih]

theorem maxByLen_argmax (x : String) (xs : List String) :
    (x :: xs).argmax String.length = some (maxByLen (x :: xs)) := by
  suffices h : ∀ (ys : List String) (y : String),
      List.foldl (List.argAux fun b c => String.length c < String.length b) (some y) ys =
        some (ys.foldl (fun best s => if best.length < s.length then s else best) y) by
    simpa [List.argmax, maxByLen, List.argAux] using h xs x
  intro ys
  induction ys with
  | nil => intro y; rfl
  | cons s t ih =>
    intro y
    have hstep : List.argAux (fun b c => String.length c < String.length b) (some y) s =
        some (if y.length < s.length then s else y) := by
      by_cases hc : y.length < s.length <;> simp [List.argAux, hc]
    simp only [List.foldl_cons, hstep, ih]

/-- C8: the answer extraction of the Benchmark query handler implements
exactly the claimed resolution order: the (stringified) value of the first
priority key present with a truthy value, else the longest string-valued
field (first of ties), else the stringified whole dict, and the
stringified response when it is not a dict; it is a total function, so no
response shape makes it raise. -/
theorem extract_answer_correct : ∀ r : JVal, extract_answer r = extract_answer_spec r := by
  intro r
  cases r with
  | jnull => rfl
  | jbool b => rfl
  | jnum n => rfl
  | jstr s => rfl
  | jarr xs => rfl
  | jobj fields =>
    simp only [extract_answer, extract_answer_spec]
    cases hh : (answer_keys.filter fun k =>
        ((lookupNode k fields).map pyTruthy).getD false).head? with
    | none =>
      have hfk : firstKeyAnswer fields answer_keys = none := by
        rw [firstKeyAnswer_eq, hh]
        rfl
      rw [hfk]
      cases hsv : stringValues fields with
      | nil => simp [List.argmax]
      | cons x xs =>
        rw [maxByLen_argmax]
        simp
    | some k =>
      have hkmem : k ∈ answer_keys.filter fun k =>
          ((lookupNode k fields).map pyTruthy).getD false := by
        have := List.mem_of_mem_head? (l := answer_keys.filter fun k =>
          ((lookupNode k fields).map pyTruthy).getD false) (a := k)
        apply this
        rw [hh]
        rfl
      have hk : ((lookupNode k fields).map pyTruthy).getD false = true :=
        List.of_mem_filter (p := fun k => ((lookupNode k fields).map pyTruthy).getD false)
          hkmem
      obtain ⟨v, hv⟩ : ∃ v, lookupNode k fields = some v := by
        cases hl : lookupNode k fields with
        | none =>
          rw [hl] at hk
          simp at hk
        | some v => exact ⟨v, rfl⟩
      have htr : pyTruthy v = true := by
        rw [hv] at hk
        simpa using hk
      have hfk : firstKeyAnswer fields answer_keys = some (pyStr v) := by
        rw [firstKeyAnswer_eq, hh]
        simp [hv]
      rw [hfk]
      simp only [Option.getD]
      rw [if_neg (pyStr_truthy_ne_empty htr)]
      simp [hv]

/-! ### Query endpoint bodies (claim C9) -/

/-- C9 as stated is false on the Streaming endpoint: when the embedding
call raises, the exception escapes the handler instead of an error body
being returned. -/
theorem query_endpoint_counterexample :
    query_graph_st (Except.error "connection refused") (fun _ => Except.ok [])
      (fun _ => Except.ok "") "who sent m2" = Except.error "connection refused" ∧
    isOk (query_graph_st (Except.error "connection refused") (fun _ => Except.ok [])
      (fun _ => Except.ok "") "who sent m2") = false :=
  ⟨rfl, rfl⟩

/-- C9 amended: the Benchmark /query handler always returns a JSON body of
one of the two claimed shapes — the not-initialized failure, the failure
carrying a raised step error, or the success carrying query, answer and
context — for every oracle outcome; the Streaming /query handler has no
exception handler, so a raising step escapes it, and its success body
carries only query and answer, with no context field. -/
theorem query_endpoint_shapes (q err ctx ans : String) (resp : JVal) (v : Vec)
    (llm : String → Except String JVal)
    (retrieve : Vec → Except String (List (String × List String)))
    (llmSt : List (String × List String) → Except String String) :
    (∀ (init : Bool) (search : Except String String)
        (llmAny : String → Except String JVal),
      (∃ msg, query_graph_bm init search llmAny q = ApiBody.failure msg q) ∨
      (∃ a c, query_graph_bm init search llmAny q = ApiBody.success q a c)) ∧
    query_graph_bm false (Except.ok ctx) llm q =
      ApiBody.failure "Graphiti client not initialized" q ∧
    query_graph_bm true (Except.error err) llm q = ApiBody.failure err q ∧
    query_graph_bm true (Except.ok ctx) (fun _ => Except.error err) q =
      ApiBody.failure err q ∧
    query_graph_bm true (Except.ok ctx) (fun _ => Except.ok resp) q =
      ApiBody.success q (extract_answer resp) ctx ∧
    query_graph_st (Except.error err) retrieve llmSt q = Except.error err ∧
    query_graph_st (Except.ok v) retrieve (fun _ => Except.ok ans) q =
      (retrieve v).map (fun _ => StBody.success q ans) := by
  refine ⟨?_, rfl, rfl, rfl, rfl, rfl, ?_⟩
  · intro init search llmAny
    cases init with
    | false => exact Or.inl ⟨"Graphiti client not initialized", rfl⟩
    | true =>
      cases hs : search with
      | error e => exact Or.inl ⟨e, rfl⟩
      | ok c =>
        cases hl : llmAny (bmPrompt c q) with
        | error e =>
          refine Or.inl ⟨e, ?_⟩
          simp [query_graph_bm, hl]
        | ok resp2 =>
          refine Or.inr ⟨extract_answer resp2, c, ?_⟩
          simp [query_graph_bm, hl]
  · cases hr : retrieve v with
    | error e => simp [query_graph_st, hr, Except.map]
    | ok c => simp [query_graph_st, hr, Except.map]

end GraphitiMk
